import Mathlib

/-!
Verification of the Vault secret checker's proxy handlers.

The repository's server side is a set of stateless Next.js route handlers
that validate a JSON request body, build one Vault (or Kubernetes) request,
and reshape the upstream outcome into a JSON response.  This file embeds
those handlers shallowly: JavaScript values are modelled by `JsVal`
(JSON values plus `undefined`), each handler is split into a pure
"request building" stage (`Step`) and a pure "response shaping" stage on
the upstream outcome (`VaultOutcome`), and the upstream network itself is
an explicit input.
-/

namespace VSC

set_option maxRecDepth 16384

/-- Model of a JavaScript value as handled by the routes: the JSON values
plus `undefined` (absent object properties, `?.` chains). Numbers are kept
as integers, which covers every numeric literal the handlers touch. -/
inductive JsVal where
  | undefined
  | null
  | bool (b : Bool)
  | num (n : Int)
  | str (s : String)
  | arr (elems : List JsVal)
  | obj (fields : List (String × JsVal))

/-- JavaScript property access `v.key` / `v?.key` as used on parsed JSON:
looking up a key on an object yields its value, any other access yields
`undefined`. -/
def JsVal.get : JsVal → String → JsVal
  | .obj fields, key =>
    match fields.lookup key with
    | some v => v
    | none => .undefined
  | _, _ => .undefined

/-- JavaScript falsiness for the values the handlers test with `!x` / `||`. -/
def jsFalsy : JsVal → Bool
  | .undefined => true
  | .null => true
  | .bool b => !b
  | .num n => n == 0
  | .str s => s == ""
  | .arr _ => false
  | .obj _ => false

/-- JavaScript `a || b`. -/
def jsOr (a b : JsVal) : JsVal :=
  if jsFalsy a then b else a

/-- JavaScript strict equality `x === s` between a value and a string. -/
def jsStrEq : JsVal → String → Bool
  | .str t, s => t == s
  | _, _ => false

/-- JavaScript `Array.prototype.includes(s)` for a string argument, on the
array values the capabilities handler receives. -/
def jsIncludes (v : JsVal) (s : String) : Bool :=
  match v with
  | .arr xs => xs.any (fun j => jsStrEq j s)
  | _ => false

/-- JavaScript `String.prototype.startsWith(pre)`. -/
def jsStartsWith (s pre : String) : Bool :=
  pre.data.isPrefixOf s.data

/-- JavaScript `String.prototype.endsWith(post)`. -/
def jsEndsWith (s post : String) : Bool :=
  post.data.isSuffixOf s.data

/-- JavaScript `s.slice(0, -1)`: the string without its last character. -/
def jsSliceDropLast (s : String) : String :=
  ⟨s.data.dropLast⟩

/-- Truthiness test the handlers apply to destructured string body fields
(`!endpoint` …): the field is absent, or present and the empty string. -/
def jsStrFalsy : Option String → Bool
  | none => true
  | some s => s == ""

/-- `mentions msg part` holds when `part` occurs verbatim inside `msg`;
used to state that an error message names a field or a value. -/
def mentions (msg part : String) : Prop :=
  part.data <:+: msg.data

instance (msg part : String) : Decidable (mentions msg part) :=
  List.decidableInfix part.data msg.data

theorem mentions_append (a p b : String) : mentions (a ++ p ++ b) p := by
  simp only [mentions, String.data_append]
  exact List.infix_append _ _ _

theorem mentions_of_parts (m a p b : String)
    (h : m.data = a.data ++ p.data ++ b.data) : mentions m p := by
  simp only [mentions, h]
  exact List.infix_append _ _ _

theorem startsWith_slash_split (s : String) (h : jsStartsWith s "/" = true) :
    "/" ++ s.drop 1 = s := by
  have hp : ("/" : String).data <+: s.data := by
    simpa [jsStartsWith] using h
  obtain ⟨t, ht⟩ := hp
  apply String.ext
  simp only [String.data_append, String.data_drop]
  rw [← ht]
  rfl

theorem endsWith_slash_split (s : String) (h : jsEndsWith s "/" = true) :
    jsSliceDropLast s ++ "/" = s := by
  have hp : ("/" : String).data <:+ s.data := by
    simpa [jsEndsWith] using h
  obtain ⟨t, ht⟩ := hp
  apply String.ext
  simp only [String.data_append, jsSliceDropLast]
  rw [← ht]
  simp

/-- An HTTP response produced by a handler: `NextResponse.json(body, {status})`,
with the default status 200 when none is given. -/
structure HttpResponse where
  status : Nat
  body : JsVal

/-- The first stage of a handler: it either finishes with a response before
any upstream request is issued, or it issues exactly one upstream call. -/
inductive Step (χ : Type) where
  | respond (r : HttpResponse)
  | callUpstream (c : χ)

/-- Outcome of an axios call as observed by a handler's `try`/`catch`:
axios resolves exactly on a 2xx status (carrying the parsed body; an empty
body parses to the empty string), rejects with `error.response` populated
on any other HTTP status, and rejects without a response on a
network/transport/timeout failure. -/
inductive VaultOutcome where
  | ok (status : Nat) (body : JsVal)
  | httpError (status : Nat) (statusText : String) (body : JsVal)
  | netError (msg : String)

/-- Body `{success: false, error: msg}`. -/
def mkErr (msg : String) : JsVal :=
  .obj [("success", .bool false), ("error", .str msg)]

/-- Body `{success: false, error: msg, details: d}`. -/
def mkErrD (msg : String) (d : JsVal) : JsVal :=
  .obj [("success", .bool false), ("error", .str msg), ("details", d)]

/-! Each handler normalizes the endpoint with the same line
`endpoint.endsWith('/') ? endpoint.slice(0, -1) : endpoint`; one
definition per handler, mirroring the line in each route file. -/

/-- `src/app/api/vault/login/route.ts` line 106. -/
def loginVaultUrl (endpoint : String) : String :=
  if jsEndsWith endpoint "/" then jsSliceDropLast endpoint else endpoint

/-- Token lookup route (`lookup` handler) line 112. -/
def lookupVaultUrl (endpoint : String) : String :=
  if jsEndsWith endpoint "/" then jsSliceDropLast endpoint else endpoint

/-- `src/app/api/vault/validate-access/route.ts` line 16. -/
def validateVaultUrl (endpoint : String) : String :=
  if jsEndsWith endpoint "/" then jsSliceDropLast endpoint else endpoint

/-- `src/app/api/vault/revoke-self/route.ts` line 30. -/
def revokeVaultUrl (endpoint : String) : String :=
  if jsEndsWith endpoint "/" then jsSliceDropLast endpoint else endpoint

/-- `src/app/api/vault/sys/wrapping/unwrap/route.ts` line 35. -/
def unwrapVaultUrl (endpoint : String) : String :=
  if jsEndsWith endpoint "/" then jsSliceDropLast endpoint else endpoint

/-- Secret retrieval route (get-secret handler) line 16. -/
def getSecretVaultUrl (endpoint : String) : String :=
  if jsEndsWith endpoint "/" then jsSliceDropLast endpoint else endpoint

/-- The capabilities-check path of the validate-access handler
(`src/app/api/vault/validate-access/route.ts` lines 19-26): an absolute
secret path is used with its leading slash removed (`substring(1)`), a
relative one is prefixed with `secret/data/`. -/
def pathForCheck (secretPath : String) : String :=
  if jsStartsWith secretPath "/" then secretPath.drop 1
  else "secret/data/" ++ secretPath

/-- A Vault request carrying only the bearer token (lookup, revoke, unwrap,
secret retrieval). -/
structure TokenReq where
  url : String
  token : String

/-- The capabilities-self request: URL, body `{path}`, and token header. -/
structure CapsReq where
  url : String
  path : String
  token : String

/-- The AppRole login request: URL and body `{role_id, secret_id}`. -/
structure LoginReq where
  url : String
  roleId : String
  secretId : String

/-- Validation and request building of the token lookup handler. -/
def lookupStep (endpoint token : Option String) : Step TokenReq :=
  if jsStrFalsy endpoint || jsStrFalsy token then
    .respond ⟨400, mkErr "Missing required fields: endpoint, token"⟩
  else
    .callUpstream ⟨lookupVaultUrl (endpoint.getD "") ++ "/v1/auth/token/lookup-self",
      token.getD ""⟩

/-- Validation and request building of the revoke-self handler. -/
def revokeStep (endpoint token : Option String) : Step TokenReq :=
  if jsStrFalsy endpoint || jsStrFalsy token then
    .respond ⟨400, mkErr "Missing required fields: endpoint, token"⟩
  else
    .callUpstream ⟨revokeVaultUrl (endpoint.getD "") ++ "/v1/auth/token/revoke-self",
      token.getD ""⟩

/-- Validation and request building of the unwrap handler; the wrapped token
itself is sent as the `X-Vault-Token` header. -/
def unwrapStep (endpoint wrappedToken : Option String) : Step TokenReq :=
  if jsStrFalsy endpoint || jsStrFalsy wrappedToken then
    .respond ⟨400, mkErr "Missing required fields: endpoint, wrappedToken"⟩
  else
    .callUpstream ⟨unwrapVaultUrl (endpoint.getD "") ++ "/v1/sys/wrapping/unwrap",
      wrappedToken.getD ""⟩

/-- Validation and request building of the validate-access handler
(`src/app/api/vault/validate-access/route.ts` lines 9-38). -/
def validateStep (endpoint token secretPath : Option String) : Step CapsReq :=
  if jsStrFalsy endpoint || jsStrFalsy token || jsStrFalsy secretPath then
    .respond ⟨400, mkErr "Missing required fields: endpoint, token, secretPath"⟩
  else
    .callUpstream ⟨validateVaultUrl (endpoint.getD "") ++ "/v1/sys/capabilities-self",
      pathForCheck (secretPath.getD ""), token.getD ""⟩

/-- Validation and request building of the secret retrieval handler
(unnamed route file, lines 5-34): an absolute secret path is appended to the
normalized endpoint directly, a relative one via `/v1/secret/data/`. -/
def getSecretStep (endpoint token secretPath : Option String) : Step TokenReq :=
  if jsStrFalsy endpoint || jsStrFalsy token || jsStrFalsy secretPath then
    .respond ⟨400, mkErr "Missing required fields: endpoint, token, secretPath"⟩
  else
    let vaultUrl := getSecretVaultUrl (endpoint.getD "")
    let sp := secretPath.getD ""
    let secretUrl :=
      if jsStartsWith sp "/" then vaultUrl ++ sp
      else vaultUrl ++ "/v1/secret/data/" ++ sp
    .callUpstream ⟨secretUrl, token.getD ""⟩

/-- Response shaping of the token lookup handler: on success a fixed subset
of `response.data.data` is projected (absent fields stay `undefined`); the
`catch` branch mirrors Vault's status and attaches its body as `details`. -/
def lookupRespond : VaultOutcome → HttpResponse
  | .ok _ body =>
    let d := body.get "data"
    ⟨200, .obj [("success", .bool true), ("data", .obj [
      ("id", d.get "id"),
      ("accessor", d.get "accessor"),
      ("creation_time", d.get "creation_time"),
      ("expire_time", d.get "expire_time"),
      ("ttl", d.get "ttl"),
      ("renewable", d.get "renewable"),
      ("policies", d.get "policies"),
      ("entity_id", d.get "entity_id"),
      ("display_name", d.get "display_name")])]⟩
  | .httpError s st d =>
    ⟨s, mkErrD ("Token lookup failed: " ++ toString s ++ " " ++ st) d⟩
  | .netError m => ⟨500, mkErr ("Network error: " ++ m)⟩

/-- Response shaping of the login handler around the Vault AppRole call. -/
def loginRespond : VaultOutcome → HttpResponse
  | .ok _ body =>
    let auth := body.get "auth"
    ⟨200, .obj [("success", .bool true), ("data", .obj [
      ("auth", auth),
      ("token", auth.get "client_token"),
      ("renewable", auth.get "renewable"),
      ("lease_duration", auth.get "lease_duration")])]⟩
  | .httpError s st d =>
    ⟨s, mkErrD ("Vault login failed: " ++ toString s ++ " " ++ st) d⟩
  | .netError m => ⟨500, mkErr ("Network error: " ++ m)⟩

/-- JavaScript `Array.prototype.join(sep)` restricted to the values the
summary line can receive; string elements are joined as-is. -/
def jsJoin (v : JsVal) (sep : String) : String :=
  match v with
  | .arr xs => String.intercalate sep (xs.map fun j =>
      match j with
      | .str s => s
      | _ => "")
  | _ => ""

/-- JavaScript `.length` of an array value. -/
def jsLen (v : JsVal) : Nat :=
  match v with
  | .arr xs => xs.length
  | _ => 0

/-- Success branch of the validate-access handler
(`src/app/api/vault/validate-access/route.ts` lines 40-61): capability
membership tests and the derived `hasAccess` flag. -/
def validateRespondOk (secretPath pfc : String) (respBody : JsVal) : HttpResponse :=
  let capabilities := jsOr (respBody.get "capabilities") (.arr [])
  let hasReadPermission := jsIncludes capabilities "read"
  let hasListPermission := jsIncludes capabilities "list"
  let hasWritePermission := jsIncludes capabilities "write"
  let hasDeletePermission := jsIncludes capabilities "delete"
  ⟨200, .obj [("success", .bool true), ("data", .obj [
    ("secretPath", .str secretPath),
    ("resolvedPath", .str pfc),
    ("capabilities", capabilities),
    ("permissions", .obj [
      ("read", .bool hasReadPermission),
      ("list", .bool hasListPermission),
      ("write", .bool hasWritePermission),
      ("delete", .bool hasDeletePermission)]),
    ("hasAccess", .bool (hasReadPermission || hasListPermission)),
    ("summary", .str ("Token has " ++
      (if jsLen capabilities > 0 then jsJoin capabilities ", " else "no") ++
      " permissions on this path"))])]⟩

/-- Response shaping of the validate-access handler. -/
def validateRespond (secretPath pfc : String) : VaultOutcome → HttpResponse
  | .ok _ body => validateRespondOk secretPath pfc body
  | .httpError s st d =>
    ⟨s, mkErrD ("Permission validation failed: " ++ toString s ++ " " ++ st) d⟩
  | .netError m => ⟨500, mkErr ("Network error: " ++ m)⟩

/-- Response shaping of the revoke-self handler: on a resolved (2xx) call the
parsed body is returned as-is with the default 200 status. -/
def revokeRespond : VaultOutcome → HttpResponse
  | .ok _ body => ⟨200, body⟩
  | .httpError s st d =>
    ⟨s, mkErrD ("Token revoke failed: " ++ toString s ++ " " ++ st) d⟩
  | .netError m => ⟨500, mkErr ("Network error: " ++ m)⟩

/-- Response shaping of the unwrap handler (the email side effect is
dispatched without affecting the response and is modelled separately). -/
def unwrapRespond : VaultOutcome → HttpResponse
  | .ok _ body => ⟨200, body⟩
  | .httpError s st d =>
    ⟨s, mkErrD ("Token unwrap failed: " ++ toString s ++ " " ++ st) d⟩
  | .netError m => ⟨500, mkErr ("Network error: " ++ m)⟩

/-- JavaScript `x !== undefined`, negated. -/
def jsIsUndefined : JsVal → Bool
  | .undefined => true
  | _ => false

/-- JavaScript `Object.keys` on the values the secret retrieval handler
reaches after `|| {}`. -/
def jsKeys (v : JsVal) : List String :=
  match v with
  | .obj fields => fields.map (·.1)
  | _ => []

/-- Metadata projection of the secret retrieval handler. -/
def getSecretMetadata (body : JsVal) : JsVal :=
  let md := (body.get "data").get "metadata"
  .obj [("created_time", md.get "created_time"),
        ("deletion_time", md.get "deletion_time"),
        ("destroyed", md.get "destroyed"),
        ("version", md.get "version")]

/-- Response shaping of the secret retrieval handler: single-key projection
when `keyName` is given and non-blank, otherwise all keys. -/
def getSecretRespond (secretPath : String) (keyName : Option String) :
    VaultOutcome → HttpResponse
  | .ok _ body =>
    let secretData := jsOr ((body.get "data").get "data") (.obj [])
    if !jsStrFalsy keyName && !((keyName.getD "").trim == "") then
      let kn := keyName.getD ""
      let keyValue := secretData.get kn
      ⟨200, .obj [("success", .bool true), ("data", .obj [
        ("secretPath", .str secretPath),
        ("keyName", .str kn),
        ("keyValue", if jsIsUndefined keyValue then .null else keyValue),
        ("keyExists", .bool !(jsIsUndefined keyValue)),
        ("requestedSingleKey", .bool true),
        ("metadata", getSecretMetadata body)])]⟩
    else
      ⟨200, .obj [("success", .bool true), ("data", .obj [
        ("secretPath", .str secretPath),
        ("allSecrets", secretData),
        ("allKeys", .arr ((jsKeys secretData).map .str)),
        ("totalKeys", .num (jsKeys secretData).length),
        ("requestedSingleKey", .bool false),
        ("metadata", getSecretMetadata body)])]⟩
  | .httpError s st d =>
    ⟨s, mkErrD ("Secret retrieval failed: " ++ toString s ++ " " ++ st) d⟩
  | .netError m => ⟨500, mkErr ("Network error: " ++ m)⟩

/-- A structured Kubernetes API error as inspected by the login handler's
`catch`: an optional `response` (status code, status message, body) and the
error's `message` string. -/
structure K8sApiError where
  response : Option (Nat × String × JsVal)
  message : String

/-- Validation, Kubernetes secret resolution, and Vault request building of
the login handler (`src/app/api/vault/login/route.ts` lines 5-112).
`decode` stands for `Buffer.from(value, 'base64').toString('utf-8')`;
`configLoadOk` is whether loading the kubeconfig succeeded, and
`readResult` is the outcome of `readNamespacedSecret` (its `data` map may be
absent, hence the inner `Option`). A `.respond` result means the handler
answers without ever calling Vault. -/
def loginStep (decode : String → String)
    (endpoint accessId k8sNamespace k8sSecretName secretKey : Option String)
    (configLoadOk : Bool)
    (readResult : Except K8sApiError (Option (List (String × String)))) :
    Step LoginReq :=
  if jsStrFalsy endpoint || jsStrFalsy accessId then
    .respond ⟨400, mkErr "Missing required fields: endpoint, accessId"⟩
  else if jsStrFalsy k8sNamespace || jsStrFalsy k8sSecretName || jsStrFalsy secretKey then
    .respond ⟨400,
      mkErr "Missing Kubernetes secret reference fields: namespace, secretName, secretKey"⟩
  else
    let sn := k8sSecretName.getD ""
    let ns := k8sNamespace.getD ""
    let sk := secretKey.getD ""
    if !configLoadOk then
      .respond ⟨500, mkErr
        "Failed to initialize Kubernetes client. Ensure KUBECONFIG is set or running in cluster."⟩
    else
      match readResult with
      | .error e =>
        match e.response with
        | some (statusCode, _, _) =>
          if statusCode == 404 then
            .respond ⟨404, mkErr
              ("Secret '" ++ sn ++ "' not found in namespace '" ++ ns ++ "'")⟩
          else if statusCode == 403 then
            .respond ⟨403, mkErr
              "Insufficient permissions to read secrets. Check RBAC configuration."⟩
          else
            .respond ⟨500, mkErr ("Kubernetes secret fetch error: " ++ e.message)⟩
        | none =>
          .respond ⟨500, mkErr ("Kubernetes secret fetch error: " ++ e.message)⟩
      | .ok secretData =>
        match secretData with
        | none =>
          .respond ⟨404, mkErr ("Secret key '" ++ sk ++ "' not found in secret '" ++
            sn ++ "' in namespace '" ++ ns ++ "'")⟩
        | some d =>
          match d.lookup sk with
          | none =>
            .respond ⟨404, mkErr ("Secret key '" ++ sk ++ "' not found in secret '" ++
              sn ++ "' in namespace '" ++ ns ++ "'")⟩
          | some v =>
            if v == "" then
              .respond ⟨404, mkErr ("Secret key '" ++ sk ++ "' not found in secret '" ++
                sn ++ "' in namespace '" ++ ns ++ "'")⟩
            else
              let finalAccessKey := decode v
              if finalAccessKey == "" then
                .respond ⟨400, mkErr "Missing accessKey from Kubernetes secret"⟩
              else
                .callUpstream ⟨loginVaultUrl (endpoint.getD "") ++ "/v1/auth/approle/login",
                  accessId.getD "", finalAccessKey⟩

/-! Email notifier (`src/lib/email.ts`). -/

/-- The SMTP-related process environment read by the notifier. -/
structure SmtpEnv where
  smtpHost : Option String
  appTitle : Option String

/-- `isSmtpConfigured` (`src/lib/email.ts` lines 53-57): SMTP is configured
when `SMTP_HOST` is set, non-empty, and not one of the placeholder hosts. -/
def isSmtpConfigured (env : SmtpEnv) : Bool :=
  match env.smtpHost with
  | none => false
  | some h => !(h == "") && !(h == "smtp.example.com") && !(h == "xxx.example.com")

/-- A character the splitting regex `/[,\s]+/` matches. -/
def isSepChar (c : Char) : Bool :=
  c == ',' || c.isWhitespace

/-- JavaScript `emailString.split(/[,\s]+/)`: tokens between maximal
separator runs, keeping empty tokens at the edges. The flag records whether
the previous character belonged to a separator run. -/
def splitSepsAux : List Char → List Char → Bool → List String
  | [], acc, _ => [String.mk acc.reverse]
  | c :: rest, acc, inSep =>
    if isSepChar c then
      if inSep then splitSepsAux rest acc true
      else String.mk acc.reverse :: splitSepsAux rest [] true
    else splitSepsAux rest (c :: acc) false

def splitSeps (s : String) : List String :=
  splitSepsAux s.data [] false

/-- A character the regex class `[^\s@]` matches. -/
def isEmailAtomChar (c : Char) : Bool :=
  !(c == '@') && !c.isWhitespace

/-- `isValidEmail` (`src/lib/email.ts` lines 99-102), i.e. the regex
`^[^\s@]+@[^\s@]+\.[^\s@]+$`: a non-empty local part, one `@`, and a domain
containing a dot with non-empty halves, with no whitespace or second `@`
anywhere. -/
def isValidEmail (s : String) : Bool :=
  match s.data.splitOn '@' with
  | [locl, dom] =>
    !locl.isEmpty && locl.all isEmailAtomChar && dom.all isEmailAtomChar &&
      ((dom.drop 1).dropLast).contains '.'
  | _ => false

/-- `parseEmailAddresses` (`src/lib/email.ts` lines 60-67). -/
def parseEmailAddresses (emailString : String) : List String :=
  if emailString == "" then []
  else
    ((splitSeps emailString).map String.trim).filter
      (fun email => !(email == "") && isValidEmail email)

/-- The notification payload handed to `sendUnwrapNotification`. -/
structure UnwrapNotificationData where
  timestamp : String
  endpoint : String
  success : Bool
  userAgent : Option String
  ipAddress : Option String
  response : Option JsVal

/-- Aggregate result of `sendUnwrapNotification`. -/
structure EmailSendResult where
  success : Nat
  failed : Nat
  details : List String

/-- One message handed to `sendEmail` (and hence to the SMTP transport). -/
structure EmailMessage where
  recipient : String
  subject : String
  text : String

/-- The notifier's effectful surroundings: the environment, the per-recipient
outcome of `sendEmail` (which performs the SMTP traffic), and
`JSON.stringify(·, null, 2)`. -/
structure EmailWorld where
  env : SmtpEnv
  sendOutcome : String → Bool
  stringify : JsVal → String

/-- The per-recipient send loop of `sendUnwrapNotification`
(`src/lib/email.ts` lines 210-230); also returns the list of messages handed
to `sendEmail`, i.e. the attempted SMTP deliveries. -/
def sendLoop (w : EmailWorld) (subject text : String) :
    List String → EmailSendResult → EmailSendResult × List EmailMessage
  | [], acc => (acc, [])
  | e :: rest, acc =>
    let acc' :=
      if w.sendOutcome e then
        { acc with success := acc.success + 1,
                   details := acc.details ++ ["Successfully sent to " ++ e] }
      else
        { acc with failed := acc.failed + 1,
                   details := acc.details ++ ["Failed to send to " ++ e] }
    let res := sendLoop w subject text rest acc'
    (res.1, ⟨e, subject, text⟩ :: res.2)

/-- `sendUnwrapNotification` (`src/lib/email.ts` lines 160-234): skips with a
zero result when SMTP is unconfigured or no address parses; otherwise sends
one message per parsed recipient. The second component is the list of
attempted SMTP deliveries. -/
def sendUnwrapNotification (w : EmailWorld) (emailString : String)
    (data : UnwrapNotificationData) : EmailSendResult × List EmailMessage :=
  if !isSmtpConfigured w.env then
    (⟨0, 0, ["SMTP not configured"]⟩, [])
  else
    let emails := parseEmailAddresses emailString
    if emails.isEmpty then
      (⟨0, 0, ["No valid email addresses found"]⟩, [])
    else
      let subject := "Token Unwrap Notification - " ++
        (if data.success then "Success" else "Failed")
      let appTitle :=
        match w.env.appTitle with
        | some t => if t == "" then "Vault Secret Checker" else t
        | none => "Vault Secret Checker"
      let responseData :=
        match data.response with
        | some r => if jsFalsy r then "No response data available" else w.stringify r
        | none => "No response data available"
      let ua := match data.userAgent with
        | some u => if u == "" then "Unknown" else u
        | none => "Unknown"
      let ip := match data.ipAddress with
        | some i => if i == "" then "Unknown" else i
        | none => "Unknown"
      let textContent := "Token Unwrap Notification\n\nStatus: " ++
        (if data.success then "SUCCESS" else "FAILED") ++
        "\nTimestamp: " ++ data.timestamp ++
        "\nEndpoint: " ++ data.endpoint ++
        "\nUser Agent: " ++ ua ++
        "\nIP Address: " ++ ip ++
        "\n\nResponse Data:\n" ++ responseData ++
        "\n\nThis notification was generated automatically by the " ++
        appTitle ++ " system."
      sendLoop w subject textContent emails ⟨0, 0, []⟩

/-! Claims. -/

/-- C1: for every secretPath accepted by the validate-access handler, the
path sent to Vault's sys/capabilities-self equals secretPath with exactly
one leading slash removed when secretPath starts with a slash, and
`secret/data/` concatenated with secretPath otherwise. -/
theorem C1_capabilities_path (ep tok sp : String)
    (hep : ep ≠ "") (htok : tok ≠ "") (hsp : sp ≠ "") :
    ∃ c : CapsReq,
      validateStep (some ep) (some tok) (some sp) = .callUpstream c ∧
      c.url = validateVaultUrl ep ++ "/v1/sys/capabilities-self" ∧
      (jsStartsWith sp "/" = true → "/" ++ c.path = sp) ∧
      (jsStartsWith sp "/" = false → c.path = "secret/data/" ++ sp) := by
  refine ⟨⟨validateVaultUrl ep ++ "/v1/sys/capabilities-self", pathForCheck sp, tok⟩,
    ?_, rfl, ?_, ?_⟩
  · simp [validateStep, jsStrFalsy, hep, htok, hsp]
  · intro h
    rw [pathForCheck, if_pos (by simp [h])]
    exact startsWith_slash_split sp h
  · intro h
    rw [pathForCheck, if_neg (by simp [h])]

/-- C1 witness: concrete absolute and relative secret paths. -/
theorem C1_capabilities_path_witness :
    ∃ c : CapsReq,
      validateStep (some "http://v:8200") (some "tok") (some "/kv/data/app") =
        .callUpstream c ∧ "/" ++ c.path = "/kv/data/app" := by
  obtain ⟨c, h1, _, h3, _⟩ :=
    C1_capabilities_path "http://v:8200" "tok" "/kv/data/app"
      (by decide) (by decide) (by decide)
  exact ⟨c, h1, h3 (by decide)⟩

/-- C10: every proxy handler normalizes the endpoint identically; the base
URL is the endpoint with exactly one trailing slash removed when the
endpoint ends in a slash, and the endpoint unchanged otherwise, so an
endpoint ending in a double slash keeps one trailing slash. -/
theorem C10_endpoint_normalization (e : String) :
    (loginVaultUrl e = lookupVaultUrl e ∧ lookupVaultUrl e = validateVaultUrl e ∧
     validateVaultUrl e = revokeVaultUrl e ∧ revokeVaultUrl e = unwrapVaultUrl e ∧
     unwrapVaultUrl e = getSecretVaultUrl e) ∧
    (jsEndsWith e "/" = true → loginVaultUrl e ++ "/" = e) ∧
    (jsEndsWith e "/" = false → loginVaultUrl e = e) ∧
    (jsEndsWith e "//" = true → jsEndsWith (loginVaultUrl e) "/" = true) := by
  refine ⟨⟨rfl, rfl, rfl, rfl, rfl⟩, ?_, ?_, ?_⟩
  · intro h
    rw [loginVaultUrl, if_pos (by simp [h])]
    exact endsWith_slash_split e h
  · intro h
    rw [loginVaultUrl, if_neg (by simp [h])]
  · intro h
    have h2 : ("//" : String).data <:+ e.data := by
      have := h
      simp only [jsEndsWith, List.isSuffixOf_iff_suffix] at this
      exact this
    obtain ⟨t, ht⟩ := h2
    have hd : ("//" : String).data = ['/', '/'] := rfl
    rw [hd] at ht
    have h1 : jsEndsWith e "/" = true := by
      simp only [jsEndsWith, List.isSuffixOf_iff_suffix]
      exact ⟨t ++ ['/'], by rw [← ht]; simp⟩
    rw [loginVaultUrl, if_pos (by simp [h1])]
    simp only [jsEndsWith, jsSliceDropLast, List.isSuffixOf_iff_suffix]
    refine ⟨t, ?_⟩
    rw [← ht]
    simp

/-- C10 witness: a slash-terminated, a bare, and a double-slash endpoint. -/
theorem C10_endpoint_normalization_witness :
    loginVaultUrl "http://v:8200/" ++ "/" = "http://v:8200/" ∧
    loginVaultUrl "http://v:8200" = "http://v:8200" ∧
    jsEndsWith (loginVaultUrl "http://v:8200//") "/" = true :=
  ⟨(C10_endpoint_normalization "http://v:8200/").2.1 (by decide),
   (C10_endpoint_normalization "http://v:8200").2.2.1 (by decide),
   (C10_endpoint_normalization "http://v:8200//").2.2.2 (by decide)⟩

theorem jsIncludes_map_str (caps : List String) (s : String) :
    jsIncludes (.arr (caps.map .str)) s = true ↔ s ∈ caps := by
  simp [jsIncludes, jsStrEq, List.any_map, Function.comp, beq_iff_eq]

/-- Field `f` of the `data` object in the validate-access success response
for a capability list `caps`. -/
def validateDataField (caps : List String) (sp pfc f : String) : JsVal :=
  ((validateRespondOk sp pfc
    (.obj [("capabilities", .arr (caps.map .str))])).body.get "data").get f

/-- C2: the validate-access response sets each permission flag true exactly
when the corresponding capability string is a member of the list Vault
returned, and `hasAccess` is true iff `read` or `list` is a member; on the
empty list `hasAccess` is false. -/
theorem C2_capability_membership (caps : List String) (sp pfc : String) :
    ((validateDataField caps sp pfc "permissions").get "read" = .bool true ↔
      "read" ∈ caps) ∧
    ((validateDataField caps sp pfc "permissions").get "list" = .bool true ↔
      "list" ∈ caps) ∧
    ((validateDataField caps sp pfc "permissions").get "write" = .bool true ↔
      "write" ∈ caps) ∧
    ((validateDataField caps sp pfc "permissions").get "delete" = .bool true ↔
      "delete" ∈ caps) ∧
    (validateDataField caps sp pfc "hasAccess" = .bool true ↔
      ("read" ∈ caps ∨ "list" ∈ caps)) ∧
    validateDataField [] sp pfc "hasAccess" = .bool false := by
  have hacc : validateDataField caps sp pfc "hasAccess" =
      .bool (jsIncludes (.arr (caps.map .str)) "read" ||
             jsIncludes (.arr (caps.map .str)) "list") := rfl
  refine ⟨?_, ?_, ?_, ?_, ?_, rfl⟩
  · rw [show (validateDataField caps sp pfc "permissions").get "read" =
        .bool (jsIncludes (.arr (caps.map .str)) "read") from rfl]
    simp only [JsVal.bool.injEq]; exact jsIncludes_map_str caps "read"
  · rw [show (validateDataField caps sp pfc "permissions").get "list" =
        .bool (jsIncludes (.arr (caps.map .str)) "list") from rfl]
    simp only [JsVal.bool.injEq]; exact jsIncludes_map_str caps "list"
  · rw [show (validateDataField caps sp pfc "permissions").get "write" =
        .bool (jsIncludes (.arr (caps.map .str)) "write") from rfl]
    simp only [JsVal.bool.injEq]; exact jsIncludes_map_str caps "write"
  · rw [show (validateDataField caps sp pfc "permissions").get "delete" =
        .bool (jsIncludes (.arr (caps.map .str)) "delete") from rfl]
    simp only [JsVal.bool.injEq]; exact jsIncludes_map_str caps "delete"
  · rw [hacc]
    simp only [JsVal.bool.injEq, Bool.or_eq_true]
    rw [jsIncludes_map_str caps "read", jsIncludes_map_str caps "list"]

/-- C3: for every request accepted by the secret retrieval handler, the URL
requested from Vault is the trailing-slash-normalized endpoint followed
directly by an absolute secretPath, and followed by `/v1/secret/data/` and
the secretPath otherwise. -/
theorem C3_secret_url (ep tok sp : String)
    (hep : ep ≠ "") (htok : tok ≠ "") (hsp : sp ≠ "") :
    ∃ c : TokenReq,
      getSecretStep (some ep) (some tok) (some sp) = .callUpstream c ∧
      (jsStartsWith sp "/" = true → c.url = getSecretVaultUrl ep ++ sp) ∧
      (jsStartsWith sp "/" = false →
        c.url = getSecretVaultUrl ep ++ "/v1/secret/data/" ++ sp) ∧
      (jsEndsWith ep "/" = true → getSecretVaultUrl ep ++ "/" = ep) ∧
      (jsEndsWith ep "/" = false → getSecretVaultUrl ep = ep) := by
  refine ⟨⟨if jsStartsWith sp "/" then getSecretVaultUrl ep ++ sp
           else getSecretVaultUrl ep ++ "/v1/secret/data/" ++ sp, tok⟩,
    ?_, ?_, ?_, ?_, ?_⟩
  · simp [getSecretStep, jsStrFalsy, hep, htok, hsp]
  · intro h; rw [if_pos (by simp [h])]
  · intro h; rw [if_neg (by simp [h])]
  · intro h
    rw [getSecretVaultUrl, if_pos (by simp [h])]
    exact endsWith_slash_split ep h
  · intro h
    rw [getSecretVaultUrl, if_neg (by simp [h])]

/-- C3 witness: concrete absolute and relative secret paths. -/
theorem C3_secret_url_witness :
    ∃ c : TokenReq,
      getSecretStep (some "http://v:8200/") (some "tok") (some "/kv/data/app") =
        .callUpstream c ∧ c.url = getSecretVaultUrl "http://v:8200/" ++ "/kv/data/app" ∧
      getSecretVaultUrl "http://v:8200/" ++ "/" = "http://v:8200/" := by
  obtain ⟨c, h1, h2, _, h4, _⟩ :=
    C3_secret_url "http://v:8200/" "tok" "/kv/data/app"
      (by decide) (by decide) (by decide)
  exact ⟨c, h1, h2 (by decide), h4 (by decide)⟩

/-- The Vault body of the C9 scenario. -/
def lookupScenarioBody : JsVal :=
  .obj [("data", .obj [("id", .str "abc"), ("ttl", .num 3600),
        ("renewable", .bool true), ("policies", .arr [.str "default"])])]

/-- The handler response of the C9 scenario. -/
def lookupScenarioResp : HttpResponse :=
  lookupRespond (.ok 200 lookupScenarioBody)

/-- C9: the lookup handler on endpoint `http://localhost:8200` and token
`abc`, when Vault returns id/ttl/renewable/policies only, answers
success:true with exactly those data fields set and the remaining projected
fields undefined. -/
theorem C9_lookup_scenario :
    lookupStep (some "http://localhost:8200") (some "abc") =
      .callUpstream ⟨"http://localhost:8200/v1/auth/token/lookup-self", "abc"⟩ ∧
    lookupScenarioResp.status = 200 ∧
    lookupScenarioResp.body.get "success" = .bool true ∧
    (lookupScenarioResp.body.get "data").get "id" = .str "abc" ∧
    (lookupScenarioResp.body.get "data").get "ttl" = .num 3600 ∧
    (lookupScenarioResp.body.get "data").get "renewable" = .bool true ∧
    (lookupScenarioResp.body.get "data").get "policies" = .arr [.str "default"] ∧
    (lookupScenarioResp.body.get "data").get "accessor" = .undefined ∧
    (lookupScenarioResp.body.get "data").get "creation_time" = .undefined ∧
    (lookupScenarioResp.body.get "data").get "expire_time" = .undefined ∧
    (lookupScenarioResp.body.get "data").get "entity_id" = .undefined ∧
    (lookupScenarioResp.body.get "data").get "display_name" = .undefined :=
  ⟨rfl, rfl, rfl, rfl, rfl, rfl, rfl, rfl, rfl, rfl, rfl, rfl⟩

/-- C4: when the named Kubernetes secret exists but lacks the requested key,
the login handler answers 404 with success:false and a message naming the
key, the secret, and the namespace, and never issues the Vault login call
(the result is a `.respond`, not a `.callUpstream`, for every possible
decoder). -/
theorem C4_missing_key (decode : String → String) (ep aid ns sn sk : String)
    (d : List (String × String))
    (hep : ep ≠ "") (haid : aid ≠ "") (hns : ns ≠ "") (hsn : sn ≠ "") (hsk : sk ≠ "")
    (hkey : d.lookup sk = none) :
    loginStep decode (some ep) (some aid) (some ns) (some sn) (some sk) true
        (.ok (some d)) =
      .respond ⟨404, mkErr ("Secret key '" ++ sk ++ "' not found in secret '" ++
        sn ++ "' in namespace '" ++ ns ++ "'")⟩ ∧
    mentions ("Secret key '" ++ sk ++ "' not found in secret '" ++
        sn ++ "' in namespace '" ++ ns ++ "'") sk ∧
    mentions ("Secret key '" ++ sk ++ "' not found in secret '" ++
        sn ++ "' in namespace '" ++ ns ++ "'") sn ∧
    mentions ("Secret key '" ++ sk ++ "' not found in secret '" ++
        sn ++ "' in namespace '" ++ ns ++ "'") ns := by
  refine ⟨?_, ?_, ?_, ?_⟩
  · simp [loginStep, jsStrFalsy, hep, haid, hns, hsn, hsk, hkey]
  · exact mentions_of_parts _ "Secret key '" sk
      ("' not found in secret '" ++ sn ++ "' in namespace '" ++ ns ++ "'")
      (by simp [List.append_assoc])
  · exact mentions_of_parts _ ("Secret key '" ++ sk ++ "' not found in secret '") sn
      ("' in namespace '" ++ ns ++ "'") (by simp [List.append_assoc])
  · exact mentions_of_parts _
      ("Secret key '" ++ sk ++ "' not found in secret '" ++ sn ++ "' in namespace '")
      ns "'" (by simp [List.append_assoc])

/-- C4 witness: a concrete secret whose data lacks the requested key. -/
theorem C4_missing_key_witness :
    loginStep id (some "http://v:8200") (some "role") (some "default")
        (some "vault-secret") (some "secret-id") true
        (.ok (some [("other-key", "dmFs")])) =
      .respond ⟨404, mkErr ("Secret key '" ++ "secret-id" ++ "' not found in secret '" ++
        "vault-secret" ++ "' in namespace '" ++ "default" ++ "'")⟩ :=
  (C4_missing_key id "http://v:8200" "role" "default" "vault-secret" "secret-id"
    [("other-key", "dmFs")] (by decide) (by decide) (by decide) (by decide) (by decide)
    (by decide)).1

/-- C6: a resolved revoke-self call (2xx) whose body is empty is answered
with the 200 success path, returning Vault's (empty) body untouched; in
particular the response carries no success:false marker. -/
theorem C6_revoke_empty_body (s : Nat) (h1 : 200 ≤ s) (h2 : s < 300) :
    revokeRespond (.ok s (.str "")) = ⟨200, .str ""⟩ ∧
    (revokeRespond (.ok s (.str ""))).body.get "success" ≠ .bool false :=
  ⟨rfl, by simp [revokeRespond, JsVal.get]⟩

/-- C6 witness: Vault's typical 204 No Content. -/
theorem C6_revoke_empty_body_witness :
    revokeRespond (.ok 204 (.str "")) = ⟨200, .str ""⟩ :=
  (C6_revoke_empty_body 204 (by decide) (by decide)).1

theorem mentions_netmsg (m : String) :
    mentions ("Network error: " ++ m) "Network error" := by
  refine mentions_of_parts _ "" "Network error" (": " ++ m) ?_
  have h : ("Network error: " : String).data =
      ("Network error" : String).data ++ (": " : String).data := by decide
  simp [h, List.append_assoc]

/-- A response-shaping function mirrors Vault-side and transport failures:
an HTTP error keeps Vault's status and returns success:false with an error
message and Vault's body as `details`; a transport failure (no HTTP
response) yields 500 with success:false and a network-error message. -/
def MirrorsVaultError (respond : VaultOutcome → HttpResponse) : Prop :=
  (∀ s st d, 400 ≤ s →
    (respond (.httpError s st d)).status = s ∧
    (respond (.httpError s st d)).body.get "success" = .bool false ∧
    (∃ msg, (respond (.httpError s st d)).body.get "error" = .str msg) ∧
    (respond (.httpError s st d)).body.get "details" = d) ∧
  (∀ m,
    (respond (.netError m)).status = 500 ∧
    (respond (.netError m)).body.get "success" = .bool false ∧
    ∃ msg, (respond (.netError m)).body.get "error" = .str msg ∧
      mentions msg "Network error")

theorem mirrors_mk (respond : VaultOutcome → HttpResponse) (pre : String)
    (hE : ∀ s st d, respond (.httpError s st d) =
      ⟨s, mkErrD (pre ++ toString s ++ " " ++ st) d⟩)
    (hN : ∀ m, respond (.netError m) = ⟨500, mkErr ("Network error: " ++ m)⟩) :
    MirrorsVaultError respond := by
  constructor
  · intro s st d _
    rw [hE]
    exact ⟨rfl, rfl, ⟨_, rfl⟩, rfl⟩
  · intro m
    rw [hN]
    exact ⟨rfl, rfl, "Network error: " ++ m, rfl, mentions_netmsg m⟩

/-- C7: every proxy handler passes a Vault HTTP error through with the same
status and `{success:false, error, details}`, and answers 500 with a
network-error message on a transport failure. -/
theorem C7_error_passthrough :
    MirrorsVaultError loginRespond ∧ MirrorsVaultError lookupRespond ∧
    (∀ sp pfc, MirrorsVaultError (validateRespond sp pfc)) ∧
    MirrorsVaultError revokeRespond ∧ MirrorsVaultError unwrapRespond ∧
    (∀ sp kn, MirrorsVaultError (getSecretRespond sp kn)) :=
  ⟨mirrors_mk _ "Vault login failed: " (fun _ _ _ => rfl) (fun _ => rfl),
   mirrors_mk _ "Token lookup failed: " (fun _ _ _ => rfl) (fun _ => rfl),
   fun _ _ => mirrors_mk _ "Permission validation failed: "
     (fun _ _ _ => rfl) (fun _ => rfl),
   mirrors_mk _ "Token revoke failed: " (fun _ _ _ => rfl) (fun _ => rfl),
   mirrors_mk _ "Token unwrap failed: " (fun _ _ _ => rfl) (fun _ => rfl),
   fun _ _ => mirrors_mk _ "Secret retrieval failed: "
     (fun _ _ _ => rfl) (fun _ => rfl)⟩

/-- C7 witness: a concrete 403 from Vault and a concrete timeout. -/
theorem C7_error_passthrough_witness :
    (lookupRespond (.httpError 403 "Forbidden" (.str "permission denied"))).status =
      403 ∧
    (lookupRespond (.netError "timeout of 10000ms exceeded")).status = 500 :=
  ⟨(C7_error_passthrough.2.1.1 403 "Forbidden" (.str "permission denied")
      (by decide)).1,
   (C7_error_passthrough.2.1.2 "timeout of 10000ms exceeded").1⟩

/-- C8: with SMTP unconfigured (`SMTP_HOST` unset or a placeholder host),
`sendUnwrapNotification` returns success 0 / failed 0 and hands nothing to
the SMTP transport. -/
theorem C8_smtp_unconfigured (w : EmailWorld) (emailString : String)
    (data : UnwrapNotificationData)
    (h : w.env.smtpHost = none ∨ w.env.smtpHost = some "smtp.example.com" ∨
         w.env.smtpHost = some "xxx.example.com") :
    (sendUnwrapNotification w emailString data).1.success = 0 ∧
    (sendUnwrapNotification w emailString data).1.failed = 0 ∧
    (sendUnwrapNotification w emailString data).2 = [] := by
  have hc : isSmtpConfigured w.env = false := by
    rcases h with h | h | h <;> simp [isSmtpConfigured, h]
  simp [sendUnwrapNotification, hc]

/-- C8 witness: unset SMTP host, one otherwise valid recipient. -/
theorem C8_smtp_unconfigured_witness :
    (sendUnwrapNotification ⟨⟨none, none⟩, fun _ => true, fun _ => ""⟩ "ops@example.org"
      ⟨"2024-01-01T00:00:00Z", "http://v:8200", true, none, none, none⟩).1.success = 0 ∧
    (sendUnwrapNotification ⟨⟨none, none⟩, fun _ => true, fun _ => ""⟩ "ops@example.org"
      ⟨"2024-01-01T00:00:00Z", "http://v:8200", true, none, none, none⟩).1.failed = 0 ∧
    (sendUnwrapNotification ⟨⟨none, none⟩, fun _ => true, fun _ => ""⟩ "ops@example.org"
      ⟨"2024-01-01T00:00:00Z", "http://v:8200", true, none, none, none⟩).2 = [] :=
  C8_smtp_unconfigured _ _ _ (Or.inl rfl)

/-- C5 counterexample: with the Kubernetes namespace field absent, the login
handler's 400 message is `Missing Kubernetes secret reference fields:
namespace, secretName, secretKey`, which does not contain the missing body
field's name `k8sNamespace`, so the claim as stated fails at this input. -/
theorem C5_counterexample :
    loginStep id (some "http://v:8200") (some "role") none (some "vault-secret")
        (some "secret-id") true (.ok none) =
      .respond ⟨400, mkErr
        "Missing Kubernetes secret reference fields: namespace, secretName, secretKey"⟩ ∧
    ¬ mentions
        "Missing Kubernetes secret reference fields: namespace, secretName, secretKey"
        "k8sNamespace" :=
  ⟨rfl, by decide⟩

/-- C5 (amended): every POST handler with a required string field absent or
empty answers 400 with success:false before contacting Vault or Kubernetes
(for the login handler, for every Kubernetes environment and decoder), with
an error message naming the missing fields — the login handler's Kubernetes
reference fields being named `namespace`, `secretName`, `secretKey` rather
than by their body keys. -/
theorem C5_amended_missing_fields :
    (∀ decode ep aid ns sn sk cfg rr,
      (jsStrFalsy ep = true ∨ jsStrFalsy aid = true) →
      ∃ msg, loginStep decode ep aid ns sn sk cfg rr = .respond ⟨400, mkErr msg⟩ ∧
        (jsStrFalsy ep = true → mentions msg "endpoint") ∧
        (jsStrFalsy aid = true → mentions msg "accessId")) ∧
    (∀ decode ep aid ns sn sk cfg rr,
      jsStrFalsy ep = false → jsStrFalsy aid = false →
      (jsStrFalsy ns = true ∨ jsStrFalsy sn = true ∨ jsStrFalsy sk = true) →
      ∃ msg, loginStep decode ep aid ns sn sk cfg rr = .respond ⟨400, mkErr msg⟩ ∧
        (jsStrFalsy ns = true → mentions msg "namespace") ∧
        (jsStrFalsy sn = true → mentions msg "secretName") ∧
        (jsStrFalsy sk = true → mentions msg "secretKey")) ∧
    (∀ ep tok, (jsStrFalsy ep = true ∨ jsStrFalsy tok = true) →
      ∃ msg, lookupStep ep tok = .respond ⟨400, mkErr msg⟩ ∧
        (jsStrFalsy ep = true → mentions msg "endpoint") ∧
        (jsStrFalsy tok = true → mentions msg "token")) ∧
    (∀ ep tok, (jsStrFalsy ep = true ∨ jsStrFalsy tok = true) →
      ∃ msg, revokeStep ep tok = .respond ⟨400, mkErr msg⟩ ∧
        (jsStrFalsy ep = true → mentions msg "endpoint") ∧
        (jsStrFalsy tok = true → mentions msg "token")) ∧
    (∀ ep wt, (jsStrFalsy ep = true ∨ jsStrFalsy wt = true) →
      ∃ msg, unwrapStep ep wt = .respond ⟨400, mkErr msg⟩ ∧
        (jsStrFalsy ep = true → mentions msg "endpoint") ∧
        (jsStrFalsy wt = true → mentions msg "wrappedToken")) ∧
    (∀ ep tok sp,
      (jsStrFalsy ep = true ∨ jsStrFalsy tok = true ∨ jsStrFalsy sp = true) →
      ∃ msg, validateStep ep tok sp = .respond ⟨400, mkErr msg⟩ ∧
        (jsStrFalsy ep = true → mentions msg "endpoint") ∧
        (jsStrFalsy tok = true → mentions msg "token") ∧
        (jsStrFalsy sp = true → mentions msg "secretPath")) := by
  refine ⟨?_, ?_, ?_, ?_, ?_, ?_⟩
  · intro decode ep aid ns sn sk cfg rr h
    refine ⟨"Missing required fields: endpoint, accessId", ?_,
      fun _ => by decide, fun _ => by decide⟩
    rcases h with h | h <;> simp [loginStep, h]
  · intro decode ep aid ns sn sk cfg rr hep haid h
    refine ⟨"Missing Kubernetes secret reference fields: namespace, secretName, secretKey",
      ?_, fun _ => by decide, fun _ => by decide, fun _ => by decide⟩
    rcases h with h | h | h <;> simp [loginStep, hep, haid, h]
  · intro ep tok h
    refine ⟨"Missing required fields: endpoint, token", ?_,
      fun _ => by decide, fun _ => by decide⟩
    rcases h with h | h <;> simp [lookupStep, h]
  · intro ep tok h
    refine ⟨"Missing required fields: endpoint, token", ?_,
      fun _ => by decide, fun _ => by decide⟩
    rcases h with h | h <;> simp [revokeStep, h]
  · intro ep wt h
    refine ⟨"Missing required fields: endpoint, wrappedToken", ?_,
      fun _ => by decide, fun _ => by decide⟩
    rcases h with h | h <;> simp [unwrapStep, h]
  · intro ep tok sp h
    refine ⟨"Missing required fields: endpoint, token, secretPath", ?_,
      fun _ => by decide, fun _ => by decide, fun _ => by decide⟩
    rcases h with h | h | h <;> simp [validateStep, h]

/-- C5 witness: the lookup handler with an absent endpoint. -/
theorem C5_amended_missing_fields_witness :
    ∃ msg, lookupStep none (some "tok") = .respond ⟨400, mkErr msg⟩ ∧
      (jsStrFalsy (none : Option String) = true → mentions msg "endpoint") ∧
      (jsStrFalsy (some "tok") = true → mentions msg "token") :=
  C5_amended_missing_fields.2.2.1 none (some "tok") (Or.inl rfl)

end VSC
